import Mathlib

/-!
Verification development for the APIRecorder capture pipeline.

Shallow embedding of the core components named by the spec:
the Data Filter Engine (`src/src/core/data-filters.js`, class `DataFilters`),
the Recording Coordinator (`RecordingManager`) and the Event Correlator
(`EventHandler`).

Modelling conventions:
* JavaScript `null`/`undefined` object fields become `Option` fields;
  JS falsy-coalescing `x || d` is embedded by explicit helpers that treat
  `none`, the empty string, `false` and `0` as falsy, exactly as JS does
  on the value shapes these fields can hold.
* Host primitives (`Buffer.from(_, 'base64')`, `JSON.parse`,
  `JSON.stringify(_, null, 2)`, the WHATWG `URL` constructor) are not part
  of the repository; they are modelled abstractly as a record of functions
  (`HostPrims`) threaded through the embedding, or, for the URL parser, as
  a simplified concrete model faithful on the inputs the claims use.
* Mutation of JS objects becomes functional state update; the storage
  collaborator's `saveRequestResponse` becomes appending the record to a
  `stored` list in the coordinator state.
-/

/-- JSON values, as produced by the host `JSON.parse`. -/
inductive Json where
  | null : Json
  | bool (b : Bool) : Json
  | num (n : Int) : Json
  | str (s : String) : Json
  | arr (elems : List Json) : Json
  | obj (fields : List (String × Json)) : Json

/-- Modelled from the host environment: the primitives the filter engine
calls out to. `base64decode` models `Buffer.from(body, 'base64').toString('utf-8')`
(with `none` for a decode that throws), `jsonParse` models `JSON.parse`
(`none` = throws), `jsonStringifyPretty` models `JSON.stringify(v, null, 2)`. -/
structure HostPrims where
  base64decode : String → Option String
  jsonParse : String → Option Json
  jsonStringifyPretty : Json → String

/-- JS `s || d` on an optional string: `undefined`, `null` and `""` are falsy. -/
def jsOrStr (o : Option String) (d : String) : String :=
  match o with
  | none => d
  | some s => if s = "" then d else s

/-- JS `s || null` on an optional string field. -/
def jsOrNullStr (o : Option String) : Option String :=
  match o with
  | none => none
  | some s => if s = "" then none else some s

/-- JS `n || d` on an optional number: `undefined`, `null` and `0` are falsy. -/
def jsOrInt (o : Option Int) (d : Int) : Int :=
  match o with
  | none => d
  | some n => if n = 0 then d else n

/-- JS truthiness of an optional boolean field (`undefined`/`null`/`false` falsy). -/
def obTruthy (o : Option Bool) : Bool :=
  o.getD false

/-- Does `needle` occur at the front of `hay`? Helper for substring search. -/
def leadsWith : List Char → List Char → Bool
  | [], _ => true
  | _ :: _, [] => false
  | a :: as, b :: bs => a = b && leadsWith as bs

/-- Does `needle` occur contiguously anywhere in `hay`? -/
def occursIn (needle : List Char) : List Char → Bool
  | [] => needle.isEmpty
  | b :: bs => leadsWith needle (b :: bs) || occursIn needle bs

/-- JS `hay.includes(needle)` on strings. -/
def strIncludes (hay needle : String) : Bool :=
  occursIn needle.toList hay.toList

/-- Header mapping, insertion order preserved. -/
abbrev HeaderMap := List (String × String)

/-- The four filter toggles of `DataFilters` (`this.filters`). -/
structure Filters where
  headers : Bool
  payload : Bool
  preview : Bool
  response : Bool
deriving DecidableEq, Repr

/-- Constructor options for `DataFilters` (`options`); `none` = field absent. -/
structure FilterOptions where
  headers : Option Bool
  payload : Option Bool
  preview : Option Bool
  response : Option Bool
deriving DecidableEq, Repr

/-- The `DataFilters` constructor: each toggle defaults to `true` when the
option is `undefined` (`options.x !== undefined ? options.x : true`). -/
def mkFilters (o : FilterOptions) : Filters :=
  { headers := o.headers.getD true
    payload := o.payload.getD true
    preview := o.preview.getD true
    response := o.response.getD true }

/-- All-enabled default filters (`new DataFilters()`). -/
def defaultFilters : Filters :=
  { headers := true, payload := true, preview := true, response := true }

/-- A request object as built by `EventHandler.handleRequestWillBeSent`
(and as consumed, duck-typed, by `DataFilters.applyToRequest`). -/
structure RequestRecord where
  requestId : String
  url : String
  method : String
  headers : Option HeaderMap
  postData : Option String
  queryString : Option String
  referrer : Option String
  initiator : Option String
  resourceType : Option String
  frameId : Option String
  timestamp : Int
  redirectChain : List String
deriving DecidableEq, Repr

/-- The output shape of `DataFilters.applyToRequest`: it has exactly the
eleven fields the function assigns (nine structural fields plus `headers`
and `postData`), and in particular no `redirectChain` field. -/
structure FilteredRequest where
  requestId : String
  url : String
  method : String
  resourceType : Option String
  referrer : Option String
  queryString : Option String
  initiator : Option String
  frameId : Option String
  timestamp : Int
  headers : HeaderMap
  postData : Option String
deriving DecidableEq, Repr

/-- `DataFilters.applyToRequest(request)`: `null` guard, whitelist copy of the
structural fields, `headers` gated by the `headers` toggle
(`request.headers || {}` when on, `{}` when off), `postData` gated by the
`payload` toggle (`request.postData || null` when on, `null` when off). -/
def applyToRequest (f : Filters) : Option RequestRecord → Option FilteredRequest
  | none => none
  | some request =>
    some
      { requestId := request.requestId
        url := request.url
        method := request.method
        resourceType := request.resourceType
        referrer := request.referrer
        queryString := request.queryString
        initiator := request.initiator
        frameId := request.frameId
        timestamp := request.timestamp
        headers := if f.headers then request.headers.getD [] else []
        postData := if f.payload then jsOrNullStr request.postData else none }

/-- The preview object built by `DataFilters.generatePreview`. -/
structure Preview where
  formatted : Option String
  parsed : Option Json
  type : String

/-- A response object: the shape built by `EventHandler.handleResponseReceived`,
extended (duck-typed) with the body and preview fields later assigned by
`handleLoadingFinished` / `applyToResponse`. A field that has not been
assigned is `none`. -/
structure Resp where
  status : Option Int
  statusText : Option String
  headers : Option HeaderMap
  mimeType : Option String
  fromCache : Option Bool
  fromServiceWorker : Option Bool
  protocol : Option String
  remoteIPAddress : Option String
  remotePort : Option Int
  timestamp : Option Int
  body : Option String
  base64Encoded : Option Bool
  bodySize : Option Int
  preview : Option Preview

/-- `DataFilters.generatePreview(response)`: guard on falsy `response` /
`response.body`; base64-decode when flagged (a decode throw yields `null`);
classify by mime substring; `json` mime attempts `JSON.parse`, storing parsed
structure and pretty re-serialization on success and falling back to raw text
on parse failure; other mimes tag the raw decoded text. -/
def generatePreview (p : HostPrims) : Option Resp → Option Preview
  | none => none
  | some response =>
    match response.body with
    | none => none
    | some body =>
      if body = "" then none
      else
        let mimeType := jsOrStr response.mimeType ""
        let decoded : Option String :=
          if obTruthy response.base64Encoded then p.base64decode body else some body
        match decoded with
        | none => none
        | some decodedBody =>
          if strIncludes mimeType "json" || strIncludes mimeType "application/json" then
            match p.jsonParse decodedBody with
            | some v =>
              some { formatted := some (p.jsonStringifyPretty v), parsed := some v,
                     type := "json" }
            | none =>
              some { formatted := some decodedBody, parsed := none, type := "text" }
          else if strIncludes mimeType "xml" then
            some { formatted := some decodedBody, parsed := none, type := "xml" }
          else if strIncludes mimeType "html" then
            some { formatted := some decodedBody, parsed := none, type := "html" }
          else if strIncludes mimeType "css" then
            some { formatted := some decodedBody, parsed := none, type := "css" }
          else if strIncludes mimeType "javascript" || strIncludes mimeType "ecmascript" then
            some { formatted := some decodedBody, parsed := none, type := "javascript" }
          else
            some { formatted := some decodedBody, parsed := none, type := "text" }

/-- `DataFilters.applyToResponse(response)`: `null` guard; status, statusText,
mimeType, cache flags, protocol, remote endpoint and timestamp always copied;
`headers` gated by the `headers` toggle; raw `body`/`base64Encoded`/`bodySize`
gated by the `response` toggle; `preview` gated by the `preview` toggle and
derived from the unfiltered input response. -/
def applyToResponse (p : HostPrims) (f : Filters) : Option Resp → Option Resp
  | none => none
  | some response =>
    some
      { status := response.status
        statusText := response.statusText
        mimeType := response.mimeType
        fromCache := response.fromCache
        fromServiceWorker := response.fromServiceWorker
        protocol := response.protocol
        remoteIPAddress := response.remoteIPAddress
        remotePort := response.remotePort
        timestamp := response.timestamp
        headers := some (if f.headers then response.headers.getD [] else [])
        body := if f.response then jsOrNullStr response.body else none
        base64Encoded := some (if f.response then obTruthy response.base64Encoded else false)
        bodySize := some (if f.response then jsOrInt response.bodySize 0 else 0)
        preview := if f.preview then generatePreview p (some response) else none }

/-- Error data attached by `handleLoadingFailed` / `RecordingManager.handleRequestFailed`. -/
structure ErrData where
  errorText : String
  canceled : Bool
  blockedReason : Option String
deriving DecidableEq, Repr

/-- Body data passed by `EventHandler.handleLoadingFinished` to
`RecordingManager.handleRequestComplete`. -/
structure BodyData where
  body : Option String
  base64Encoded : Option Bool
  bodySize : Option Int
deriving DecidableEq, Repr

/-- One record of `RecordingManager.requestMap` / the unit handed to storage. -/
structure StoredRecord where
  id : String
  sessionId : String
  requestId : String
  request : Option FilteredRequest
  response : Option Resp
  timing : Option Unit
  error : Option ErrData
  status : String
  createdAt : String

/-- Insert-or-overwrite on an association list, preserving the position of an
existing key: the JS `Map.set` semantics used by `requestMap`. -/
def upsert (k : String) (v : α) : List (String × α) → List (String × α)
  | [] => [(k, v)]
  | (k₁, v₁) :: t => if k₁ = k then (k, v) :: t else (k₁, v₁) :: upsert k v t

/-- The mutable state of a `RecordingManager`, plus the list of records the
storage collaborator has received (`saveRequestResponse` appends to `stored`). -/
structure RMState where
  currentSessionId : Option String
  requestMap : List (String × StoredRecord)
  filters : Filters
  stored : List StoredRecord

namespace RecordingManager

/-- `RecordingManager.setSession(sessionId, filterOptions)`: set the session,
clear the request map, and replace the filters when options are provided. -/
def setSession (sessionId : String) (filterOptions : Option FilterOptions)
    (s : RMState) : RMState :=
  { s with
    currentSessionId := some sessionId
    requestMap := []
    filters := match filterOptions with
      | some o => mkFilters o
      | none => s.filters }

/-- `RecordingManager.handleRequest(request)`: warn-and-return when no session
is active — the JS guard `if (!this.currentSessionId)` tests truthiness, so an
absent session id and the empty-string session id are both inactive
(`jsOrNullStr` is that falsiness on optional strings); otherwise filter the
request and store a fresh pending record keyed by `request.requestId`. The
generated uuid and the creation timestamp are passed in as parameters `gid`
and `createdAt`. -/
def handleRequest (gid createdAt : String) (request : RequestRecord)
    (s : RMState) : RMState :=
  match jsOrNullStr s.currentSessionId with
  | none => s
  | some sessionId =>
    let filteredRequest := applyToRequest s.filters (some request)
    { s with
      requestMap := upsert request.requestId
        { id := gid
          sessionId := sessionId
          requestId := request.requestId
          request := filteredRequest
          response := none
          timing := none
          error := none
          status := "pending"
          createdAt := createdAt } s.requestMap }

/-- `RecordingManager.handleResponse(requestId, response)`: no-op when the
requestId is untracked; otherwise attach the filtered response and move the
record to status `response_received`. -/
def handleResponse (p : HostPrims) (requestId : String) (response : Option Resp)
    (s : RMState) : RMState :=
  match List.lookup requestId s.requestMap with
  | none => s
  | some record =>
    let filteredResponse := applyToResponse p s.filters response
    { s with
      requestMap := upsert requestId
        { record with response := filteredResponse, status := "response_received" }
        s.requestMap }

/-- `RecordingManager.handleRequestComplete(requestId, bodyData)`: no-op when
untracked; otherwise merge the body data into the (already filtered) response,
re-apply the response filter, mark the record `completed`, and hand it to
storage (append to `stored`). -/
def handleRequestComplete (p : HostPrims) (requestId : String) (bodyData : BodyData)
    (s : RMState) : RMState :=
  match List.lookup requestId s.requestMap with
  | none => s
  | some record =>
    let record₁ :=
      match record.response with
      | some resp =>
        let resp₁ := { resp with
          body := bodyData.body
          base64Encoded := bodyData.base64Encoded
          bodySize := bodyData.bodySize }
        { record with response := applyToResponse p s.filters (some resp₁) }
      | none => record
    let record₂ := { record₁ with status := "completed" }
    { s with
      requestMap := upsert requestId record₂ s.requestMap
      stored := s.stored ++ [record₂] }

/-- `RecordingManager.handleRequestFailed(requestId, error)`: no-op when
untracked; otherwise attach the error, mark the record `failed`, and hand it
to storage. -/
def handleRequestFailed (requestId : String) (error : ErrData)
    (s : RMState) : RMState :=
  match List.lookup requestId s.requestMap with
  | none => s
  | some record =>
    let record₂ := { record with error := some error, status := "failed" }
    { s with
      requestMap := upsert requestId record₂ s.requestMap
      stored := s.stored ++ [record₂] }

/-- `RecordingManager.clear()`. -/
def clear (s : RMState) : RMState :=
  { s with requestMap := [] }

end RecordingManager

/-- One coordinator entry-point invocation, for reasoning about arbitrary
event interleavings delivered to a `RecordingManager`. -/
inductive REvent where
  | request (request : RequestRecord) (gid createdAt : String)
  | response (requestId : String) (response : Option Resp)
  | complete (requestId : String) (bodyData : BodyData)
  | failed (requestId : String) (error : ErrData)

/-- Dispatch one event to the corresponding `RecordingManager` handler. -/
def rmStep (p : HostPrims) (s : RMState) : REvent → RMState
  | .request request gid createdAt => RecordingManager.handleRequest gid createdAt request s
  | .response requestId response => RecordingManager.handleResponse p requestId response s
  | .complete requestId bodyData => RecordingManager.handleRequestComplete p requestId bodyData s
  | .failed requestId error => RecordingManager.handleRequestFailed requestId error s

/-- Run a list of events through the coordinator. -/
def rmRun (p : HostPrims) (s : RMState) (es : List REvent) : RMState :=
  es.foldl (rmStep p) s

/-- Is this event a terminal (Completed or Failed) transition for `r`? -/
def isTerminalFor (r : String) : REvent → Bool
  | .complete requestId _ => requestId = r
  | .failed requestId _ => requestId = r
  | _ => false

/-- Number of records for requestId `r` in a stored-record list. -/
def countFor (r : String) (l : List StoredRecord) : Nat :=
  (l.filter (fun rec => rec.requestId = r)).length

/-- Modelled from the host environment: scheme characters accepted after the
first letter of a WHATWG URL scheme. -/
def isSchemeChar (c : Char) : Bool :=
  c.isAlpha || c.isDigit || c = '+' || c = '-' || c = '.'

/-- Helper: after an initial letter, a run of scheme characters reaching a colon. -/
def schemeRest : List Char → Bool
  | [] => false
  | c :: t => if c = ':' then true else isSchemeChar c && schemeRest t

/-- Modelled from the host environment: does `new URL(url)` succeed? Simplified
WHATWG model: the string must start with a scheme (a letter followed by scheme
characters) terminated by a colon; otherwise the constructor throws. -/
def urlParseOk (url : String) : Bool :=
  match url.toList with
  | [] => false
  | c :: t => c.isAlpha && schemeRest t

/-- Characters of `l` after the first `'?'`, or `none` when there is none. -/
def afterQm : List Char → Option (List Char)
  | [] => none
  | c :: t => if c = '?' then some t else afterQm t

/-- Modelled from the host environment: the query component of a parsed URL
(text after the first `'?'`, stopping before any `'#'` fragment); `urlObj.search`
is `"?" ++ urlQuery url` when the query is non-empty and `""` otherwise. -/
def urlQuery (url : String) : String :=
  match afterQm (url.toList.takeWhile (· ≠ '#')) with
  | none => ""
  | some l => String.mk l

/-- The query-string derivation of `EventHandler.handleRequestWillBeSent`:
`new URL(url)` then `urlObj.search ? urlObj.search.substring(1) : null`; on a
parse throw, the manual fallback `url.substring(url.indexOf('?') + 1)` when the
URL contains a `'?'`, else `null`. -/
def extractQueryString (url : String) : Option String :=
  if urlParseOk url then
    let q := urlQuery url
    if q = "" then none else some q
  else
    match afterQm url.toList with
    | none => none
    | some l => some (String.mk l)

/-- The CDP `request` payload field of a `requestWillBeSent` event. -/
structure CDPRequest where
  url : String
  method : String
  headers : Option HeaderMap
  postData : Option String
  referrer : Option String
deriving DecidableEq, Repr

/-- The parameters of a `requestWillBeSent` event. `redirectResponse` is only
tested for presence by the handler, so it is modelled as `Option Unit`. -/
structure WillBeSentParams where
  requestId : String
  request : CDPRequest
  redirectResponse : Option Unit
  type : Option String
  frameId : Option String
  initiator : Option String
deriving DecidableEq, Repr

/-- One entry of `EventHandler.pendingRequests`. -/
structure PendingEntry where
  request : RequestRecord
  response : Option Resp
  timing : Option Unit
  error : Option Unit
  status : String

/-- The combined state of an `EventHandler` and its `RecordingManager`. -/
structure EHState where
  pendingRequests : List (String × PendingEntry)
  rm : RMState

namespace EventHandler

/-- `EventHandler.findOriginalRequest(requestId)`: scan `pendingRequests` in
insertion order for the first entry whose `request.redirectChain` already
contains `requestId`; return its key (the JS code returns the request object
itself and mutates it in place). -/
def findOriginalRequest (requestId : String) :
    List (String × PendingEntry) → Option String
  | [] => none
  | (k, pending) :: t =>
    if pending.request.redirectChain.contains requestId then some k
    else findOriginalRequest requestId t

/-- Append `requestId` to the `redirectChain` of the entry keyed `k`
(the in-place `originalRequest.redirectChain.push(requestId)`). -/
def pushChain (k requestId : String) :
    List (String × PendingEntry) → List (String × PendingEntry)
  | [] => []
  | (k₁, pending) :: t =>
    if k₁ = k then
      (k₁, { pending with request := { pending.request with
        redirectChain := pending.request.redirectChain ++ [requestId] } }) :: t
    else (k₁, pending) :: pushChain k requestId t

/-- `EventHandler.handleRequestWillBeSent(params)`: derive the query string
(with malformed-URL fallback), build the request record with an empty
`redirectChain`, extend the original request's chain when `redirectResponse`
is present, store the pending entry, and notify the recording manager.
`ts` stands for `Date.now()` and `gid`/`createdAt` for the manager's
generated uuid and creation timestamp. -/
def handleRequestWillBeSent (gid createdAt : String) (ts : Int)
    (params : WillBeSentParams) (s : EHState) : EHState :=
  let queryString := extractQueryString params.request.url
  let requestRecord : RequestRecord :=
    { requestId := params.requestId
      url := params.request.url
      method := params.request.method
      headers := some (params.request.headers.getD [])
      postData := jsOrNullStr params.request.postData
      queryString := queryString
      referrer := jsOrNullStr params.request.referrer
      initiator := params.initiator
      resourceType := params.type
      frameId := params.frameId
      timestamp := ts
      redirectChain := [] }
  let pendingAfterRedirect :=
    match params.redirectResponse with
    | some _ =>
      match findOriginalRequest params.requestId s.pendingRequests with
      | some k => pushChain k params.requestId s.pendingRequests
      | none => s.pendingRequests
    | none => s.pendingRequests
  let entry : PendingEntry :=
    { request := requestRecord, response := none, timing := none,
      error := none, status := "pending" }
  { pendingRequests := upsert params.requestId entry pendingAfterRedirect
    rm := RecordingManager.handleRequest gid createdAt requestRecord s.rm }

end EventHandler

/-- A concrete instantiation of the host primitives (decode always throws,
`JSON.parse` always throws, trivial stringify), used to evaluate the
embedding on concrete inputs. -/
def trivPrims : HostPrims :=
  { base64decode := fun _ => none
    jsonParse := fun _ => none
    jsonStringifyPretty := fun _ => "" }

/-- Invariant of the coordinator state: every record in `requestMap` is keyed
by its own `requestId`. -/
def mapKeyInv (s : RMState) : Prop :=
  ∀ k rec, List.lookup k s.requestMap = some rec → rec.requestId = k

/- ### Helper lemmas about the association-list map -/

theorem lookup_upsert (k' k : String) (v : α) (m : List (String × α)) :
    List.lookup k' (upsert k v m) = if k' = k then some v else List.lookup k' m := by
  induction m with
  | nil =>
    simp only [upsert, List.lookup]
    by_cases h : k' = k
    · subst h; simp
    · simp [beq_eq_false_iff_ne.mpr h, h]
  | cons hd tl ih =>
    obtain ⟨k₁, v₁⟩ := hd
    simp only [upsert]
    by_cases h₁ : k₁ = k
    · subst h₁
      simp only [if_pos rfl, List.lookup]
      by_cases h : k' = k₁
      · subst h; simp
      · simp [beq_eq_false_iff_ne.mpr h, h]
    · simp only [if_neg h₁, List.lookup]
      by_cases h : k' = k₁
      · have hk : k' ≠ k := by rw [h]; exact h₁
        simp [h, hk, h₁]
      · simp [beq_eq_false_iff_ne.mpr h, ih]

theorem lookup_upsert_self (k : String) (v : α) (m : List (String × α)) :
    List.lookup k (upsert k v m) = some v := by
  simp [lookup_upsert]

/- ### Claim theorems -/

/-- Claim C9: `applyToRequest` and `applyToResponse` each return null rather
than throwing when given a null or undefined argument — the filter engine is
total over absent inputs at its public interface. -/
theorem C9_null_guards (p : HostPrims) (f : Filters) :
    applyToRequest f none = none ∧ applyToResponse p f none = none :=
  ⟨rfl, rfl⟩

/-- Claim C6: with filter configuration `{response:false, preview:true}`,
`applyToResponse` on a response with body `"<html></html>"` and mimeType
`"text/html"` yields `body = null`, `preview.formatted = "<html></html>"`
and `preview.type = "html"` — the preview is derived from the raw body even
though the raw-body toggle is off. -/
theorem C6_preview_despite_body_off (p : HostPrims) :
    applyToResponse p
      (mkFilters { headers := none, payload := none,
                   preview := some true, response := some false })
      (some { status := some 200, statusText := some "OK", headers := some [],
              mimeType := some "text/html", fromCache := none,
              fromServiceWorker := none, protocol := none,
              remoteIPAddress := none, remotePort := none, timestamp := none,
              body := some "<html></html>", base64Encoded := none,
              bodySize := none, preview := none })
    = some { status := some 200, statusText := some "OK", headers := some [],
             mimeType := some "text/html", fromCache := none,
             fromServiceWorker := none, protocol := none,
             remoteIPAddress := none, remotePort := none, timestamp := none,
             body := none, base64Encoded := some false, bodySize := some 0,
             preview := some { formatted := some "<html></html>",
                               parsed := none, type := "html" } } :=
  rfl

/-- Claim C10: `applyToRequest` is a whitelist projection. Its output type has
exactly the eleven fields `requestId`, `url`, `method`, `resourceType`,
`referrer`, `queryString`, `initiator`, `frameId`, `timestamp`, `headers`,
`postData`; the output is fully characterized by those copies, and any other
input field — in particular `redirectChain` — does not appear in and does not
influence the output, for every filter configuration. -/
theorem C10_whitelist_projection (f : Filters) (rq : RequestRecord) :
    applyToRequest f (some rq) =
      some { requestId := rq.requestId, url := rq.url, method := rq.method,
             resourceType := rq.resourceType, referrer := rq.referrer,
             queryString := rq.queryString, initiator := rq.initiator,
             frameId := rq.frameId, timestamp := rq.timestamp,
             headers := if f.headers then rq.headers.getD [] else [],
             postData := if f.payload then jsOrNullStr rq.postData else none }
    ∧ ∀ chain : List String,
        applyToRequest f (some { rq with redirectChain := chain }) =
          applyToRequest f (some rq) :=
  ⟨rfl, fun _ => rfl⟩

/-- Claim C4: calling `handleResponse` or `handleRequestComplete` with a
requestId for which no prior `handleRequest` was processed is a no-op: the
coordinator state (request map, session, storage handoffs) is unchanged and,
the embedding being total, no exception is thrown. -/
theorem C4_untracked_terminal_noop (p : HostPrims) (requestId : String)
    (response : Option Resp) (bodyData : BodyData) (s : RMState)
    (h : List.lookup requestId s.requestMap = none) :
    RecordingManager.handleResponse p requestId response s = s
    ∧ RecordingManager.handleRequestComplete p requestId bodyData s = s := by
  constructor
  · unfold RecordingManager.handleResponse
    rw [h]
  · unfold RecordingManager.handleRequestComplete
    rw [h]

/-- Witness for C4 at a concrete state with an empty request map. -/
theorem C4_untracked_terminal_noop_witness :
    RecordingManager.handleResponse trivPrims "R9" none
      { currentSessionId := some "S", requestMap := [],
        filters := defaultFilters, stored := [] }
    = { currentSessionId := some "S", requestMap := [],
        filters := defaultFilters, stored := [] } :=
  (C4_untracked_terminal_noop trivPrims "R9" none
    { body := none, base64Encoded := none, bodySize := none }
    { currentSessionId := some "S", requestMap := [],
      filters := defaultFilters, stored := [] } rfl).1

/-- Counterexample to claim C5 as stated: with all toggles on, a request whose
`headers` field is absent and whose `postData` is the empty string is filtered
to an empty headers mapping (`request.headers || {}`) and a null `postData`
(`request.postData || null`), so neither "result's headers equals the input's
headers" nor "result's postData equals the input's postData" holds for every
request object. -/
theorem C5_counterexample :
    ∃ out, applyToRequest defaultFilters
        (some { requestId := "R", url := "https://example.com/", method := "POST",
                headers := none, postData := some "", queryString := none,
                referrer := none, initiator := none, resourceType := none,
                frameId := none, timestamp := 0, redirectChain := [] })
      = some out
      ∧ (some out.headers ≠ (none : Option HeaderMap))
      ∧ (out.postData ≠ some "") := by
  refine ⟨_, rfl, ?_, ?_⟩ <;> decide

/-- Claim C5, amended: for every filter configuration and every request whose
`headers` field is present and whose `postData` is present and non-empty,
`applyToRequest` copies the structural fields verbatim, passes the headers
through exactly when the headers toggle is on (empty mapping otherwise), and
passes the post data through exactly when the payload toggle is on (null
otherwise); the embedding is pure, so the input is never mutated and
re-filtering a fresh unfiltered input with headers on yields the original
headers unchanged. (The amendment restricts the headers/postData clauses to
present headers and non-empty present post data: JS falsy coalescing turns an
absent headers object into `{}` and an empty-string post body into `null`.) -/
theorem C5_amended_passthrough (f : Filters) (rq : RequestRecord)
    (h : HeaderMap) (pd : String)
    (hh : rq.headers = some h) (hpd : rq.postData = some pd) (hne : pd ≠ "") :
    applyToRequest f (some rq) =
      some { requestId := rq.requestId, url := rq.url, method := rq.method,
             resourceType := rq.resourceType, referrer := rq.referrer,
             queryString := rq.queryString, initiator := rq.initiator,
             frameId := rq.frameId, timestamp := rq.timestamp,
             headers := if f.headers then h else [],
             postData := if f.payload then some pd else none } := by
  simp [applyToRequest, hh, hpd, jsOrNullStr, hne]

/-- Witness for the amended C5 at a concrete request with present headers and
non-empty post data, all toggles on. -/
theorem C5_amended_passthrough_witness :
    applyToRequest defaultFilters
      (some { requestId := "R1", url := "https://example.com/", method := "POST",
              headers := some [("content-type", "text/plain")],
              postData := some "x=1", queryString := none, referrer := none,
              initiator := none, resourceType := none, frameId := none,
              timestamp := 5, redirectChain := [] })
    = some { requestId := "R1", url := "https://example.com/", method := "POST",
             resourceType := none, referrer := none, queryString := none,
             initiator := none, frameId := none, timestamp := 5,
             headers := [("content-type", "text/plain")],
             postData := some "x=1" } := by
  rw [C5_amended_passthrough defaultFilters _ [("content-type", "text/plain")] "x=1"
    rfl rfl (by decide)]
  rfl

/-- Claim C8: the event handler always derives `queryString` without failing:
every pending entry stored by `handleRequestWillBeSent` carries
`extractQueryString url` (a total function, so no exception is possible); for
a URL accepted by the (modelled) standard parser the result is the query
component without its leading `?` (null when empty); and for the malformed URL
`"bad-url-no-scheme?q=5"` the fallback substring-after-`?` path yields `"q=5"`. -/
theorem C8_queryString_extraction :
    (∀ gid createdAt ts params s,
        (List.lookup params.requestId
            (EventHandler.handleRequestWillBeSent gid createdAt ts params s).pendingRequests).map
          (fun e => e.request.queryString)
        = some (extractQueryString params.request.url))
    ∧ (∀ url, urlParseOk url = true →
        extractQueryString url =
          if urlQuery url = "" then none else some (urlQuery url))
    ∧ extractQueryString "bad-url-no-scheme?q=5" = some "q=5" := by
  refine ⟨?_, ?_, by decide⟩
  · intro gid createdAt ts params s
    unfold EventHandler.handleRequestWillBeSent
    rw [lookup_upsert_self]
    rfl
  · intro url h
    unfold extractQueryString
    rw [if_pos h]

/-- Witness for C8 at the well-formed URL of the spec's first scenario. -/
theorem C8_queryString_extraction_witness :
    extractQueryString "https://example.com/api?x=1" = some "x=1" :=
  (C8_queryString_extraction.2.1 "https://example.com/api?x=1" (by decide)).trans
    (by decide)

/-- Claim C7: `generatePreview` is a total function (the embedding returns
normally on every `(body, mimeType, base64Encoded)` input); when the
base64 decode throws the preview is null; when the mime type names json and
the decoded body fails to parse the preview falls back to type `text` with
the raw decoded text; and on a successful parse it stores the parsed
structure together with its pretty-printed re-serialization under type
`json`. Decoding and parsing are the only throwing sites on this path, so no
input yields a thrown error. -/
theorem C7_generatePreview_error_paths (p : HostPrims) (r : Resp) (b : String)
    (hb : r.body = some b) (hne : b ≠ "") :
    (obTruthy r.base64Encoded = true → p.base64decode b = none →
        generatePreview p (some r) = none)
    ∧ (∀ d,
        (if obTruthy r.base64Encoded then p.base64decode b else some b) = some d →
        (strIncludes (jsOrStr r.mimeType "") "json"
          || strIncludes (jsOrStr r.mimeType "") "application/json") = true →
          (p.jsonParse d = none →
            generatePreview p (some r)
              = some { formatted := some d, parsed := none, type := "text" })
          ∧ (∀ v, p.jsonParse d = some v →
            generatePreview p (some r)
              = some { formatted := some (p.jsonStringifyPretty v),
                       parsed := some v, type := "json" })) := by
  constructor
  · intro ht hd
    simp [generatePreview, hb, hne, ht, hd]
  · intro d hd hm
    constructor
    · intro hp
      simp [generatePreview, hb, hne, hd, hm, hp]
    · intro v hp
      simp [generatePreview, hb, hne, hd, hm, hp]

/-- Witness for C7: with primitives whose base64 decode throws, a
base64-flagged body yields a null preview. -/
theorem C7_generatePreview_error_paths_witness :
    generatePreview trivPrims
      (some { status := none, statusText := none, headers := none,
              mimeType := some "application/json", fromCache := none,
              fromServiceWorker := none, protocol := none,
              remoteIPAddress := none, remotePort := none, timestamp := none,
              body := some "AAAA", base64Encoded := some true,
              bodySize := none, preview := none }) = none :=
  (C7_generatePreview_error_paths trivPrims _ "AAAA" rfl (by decide)).1 rfl rfl

/-- Claim C2: for a single requestId whose events arrive in protocol order
while a session is active (a session id is set and, the JS guard being a
truthiness test, non-empty) — `handleRequest`, then `handleResponse`, then
`handleRequestComplete` — the coordinator hands exactly one record to
storage, with status `completed`, the owning session id, and non-null
request and response snapshots. -/
theorem C2_happy_path_single_completed (p : HostPrims) (f : Filters)
    (sid gid createdAt : String) (req : RequestRecord) (resp : Resp)
    (bd : BodyData) (hsid : sid ≠ "") :
    ∃ rec,
      (RecordingManager.handleRequestComplete p req.requestId bd
        (RecordingManager.handleResponse p req.requestId (some resp)
          (RecordingManager.handleRequest gid createdAt req
            { currentSessionId := some sid, requestMap := [],
              filters := f, stored := [] }))).stored = [rec]
      ∧ rec.requestId = req.requestId
      ∧ rec.sessionId = sid
      ∧ rec.status = "completed"
      ∧ rec.request.isSome = true
      ∧ rec.response.isSome = true := by
  simp only [RecordingManager.handleRequest, RecordingManager.handleResponse,
    RecordingManager.handleRequestComplete, upsert, List.lookup,
    applyToRequest, applyToResponse, beq_self_eq_true, jsOrNullStr,
    if_neg hsid]
  exact ⟨_, rfl, rfl, rfl, rfl, rfl, rfl⟩

/-- Witness for C2 at a concrete non-empty session id and concrete events. -/
theorem C2_happy_path_single_completed_witness :
    ∃ rec,
      (RecordingManager.handleRequestComplete trivPrims "R1"
        { body := some "ok", base64Encoded := some false, bodySize := some 2 }
        (RecordingManager.handleResponse trivPrims "R1"
          (some { status := some 200, statusText := some "OK",
                  headers := some [], mimeType := some "text/plain",
                  fromCache := none, fromServiceWorker := none,
                  protocol := none, remoteIPAddress := none,
                  remotePort := none, timestamp := some 1, body := none,
                  base64Encoded := none, bodySize := none, preview := none })
          (RecordingManager.handleRequest "g1" "c1"
            { requestId := "R1", url := "https://example.com/api?x=1",
              method := "GET", headers := some [], postData := none,
              queryString := some "x=1", referrer := none, initiator := none,
              resourceType := none, frameId := none, timestamp := 0,
              redirectChain := [] }
            { currentSessionId := some "S", requestMap := [],
              filters := defaultFilters, stored := [] }))).stored = [rec]
      ∧ rec.requestId = "R1"
      ∧ rec.sessionId = "S"
      ∧ rec.status = "completed"
      ∧ rec.request.isSome = true
      ∧ rec.response.isSome = true :=
  C2_happy_path_single_completed trivPrims defaultFilters "S" "g1" "c1"
    { requestId := "R1", url := "https://example.com/api?x=1",
      method := "GET", headers := some [], postData := none,
      queryString := some "x=1", referrer := none, initiator := none,
      resourceType := none, frameId := none, timestamp := 0,
      redirectChain := [] }
    { status := some 200, statusText := some "OK", headers := some [],
      mimeType := some "text/plain", fromCache := none,
      fromServiceWorker := none, protocol := none, remoteIPAddress := none,
      remotePort := none, timestamp := some 1, body := none,
      base64Encoded := none, bodySize := none, preview := none }
    { body := some "ok", base64Encoded := some false, bodySize := some 2 }
    (by decide)

/- ### Lemmas about coordinator event runs (for claim C1) -/

theorem rmStep_sessionId (p : HostPrims) (s : RMState) (e : REvent) :
    (rmStep p s e).currentSessionId = s.currentSessionId := by
  cases e <;>
    simp only [rmStep, RecordingManager.handleRequest,
      RecordingManager.handleResponse, RecordingManager.handleRequestComplete,
      RecordingManager.handleRequestFailed] <;>
    (repeat' split) <;> rfl

theorem rmRun_cons (p : HostPrims) (s : RMState) (e : REvent) (es : List REvent) :
    rmRun p s (e :: es) = rmRun p (rmStep p s e) es :=
  rfl

theorem rmRun_append (p : HostPrims) (s : RMState) (l₁ l₂ : List REvent) :
    rmRun p s (l₁ ++ l₂) = rmRun p (rmRun p s l₁) l₂ := by
  simp [rmRun]

theorem rmRun_sessionId (p : HostPrims) (s : RMState) (es : List REvent) :
    (rmRun p s es).currentSessionId = s.currentSessionId := by
  induction es generalizing s with
  | nil => rfl
  | cons e es ih => rw [rmRun_cons, ih, rmStep_sessionId]

theorem lookup_upsert_isSome (r k : String) (v : α) (m : List (String × α))
    (h : (List.lookup r m).isSome = true) :
    (List.lookup r (upsert k v m)).isSome = true := by
  rw [lookup_upsert]
  by_cases hrk : r = k <;> simp [hrk, h]

theorem rmStep_tracked (p : HostPrims) (s : RMState) (e : REvent) (r : String)
    (h : (List.lookup r s.requestMap).isSome = true) :
    (List.lookup r (rmStep p s e).requestMap).isSome = true := by
  cases e <;>
    simp only [rmStep, RecordingManager.handleRequest,
      RecordingManager.handleResponse, RecordingManager.handleRequestComplete,
      RecordingManager.handleRequestFailed] <;>
    (repeat' split) <;>
    first
      | exact h
      | exact lookup_upsert_isSome _ _ _ _ h

theorem rmRun_tracked (p : HostPrims) (s : RMState) (es : List REvent) (r : String)
    (h : (List.lookup r s.requestMap).isSome = true) :
    (List.lookup r (rmRun p s es).requestMap).isSome = true := by
  induction es generalizing s with
  | nil => exact h
  | cons e es ih => exact ih _ (rmStep_tracked p s e r h)

theorem requestId_complete_update (p : HostPrims) (f : Filters) (bd : BodyData)
    (record : StoredRecord) :
    (match record.response with
      | some resp =>
        { record with response := applyToResponse p f
                        (some { resp with body := bd.body,
                                          base64Encoded := bd.base64Encoded,
                                          bodySize := bd.bodySize }) }
      | none => record).requestId = record.requestId := by
  cases record.response <;> rfl

theorem mapKeyInv_step (p : HostPrims) (s : RMState) (e : REvent)
    (hinv : mapKeyInv s) : mapKeyInv (rmStep p s e) := by
  cases e with
  | request req gid createdAt =>
    simp only [rmStep, RecordingManager.handleRequest]
    split
    · exact hinv
    · intro k rec hk
      rw [lookup_upsert] at hk
      split at hk
      · cases hk
        exact (by assumption : k = req.requestId).symm
      · exact hinv k rec hk
  | response rid resp =>
    simp only [rmStep, RecordingManager.handleResponse]
    split
    · exact hinv
    · next record hrec =>
      intro k rec hk
      rw [lookup_upsert] at hk
      split at hk
      · cases hk
        exact (hinv rid record hrec).trans (by assumption : k = rid).symm
      · exact hinv k rec hk
  | complete rid bd =>
    simp only [rmStep, RecordingManager.handleRequestComplete]
    split
    · exact hinv
    · next record hrec =>
      intro k rec hk
      rw [lookup_upsert] at hk
      split at hk
      · cases hk
        exact (requestId_complete_update p s.filters bd record).trans
          ((hinv rid record hrec).trans (by assumption : k = rid).symm)
      · exact hinv k rec hk
  | failed rid err =>
    simp only [rmStep, RecordingManager.handleRequestFailed]
    split
    · exact hinv
    · next record hrec =>
      intro k rec hk
      rw [lookup_upsert] at hk
      split at hk
      · cases hk
        exact (hinv rid record hrec).trans (by assumption : k = rid).symm
      · exact hinv k rec hk

theorem mapKeyInv_run (p : HostPrims) (s : RMState) (es : List REvent)
    (hinv : mapKeyInv s) : mapKeyInv (rmRun p s es) := by
  induction es generalizing s with
  | nil => exact hinv
  | cons e es ih => exact ih _ (mapKeyInv_step p s e hinv)

theorem countFor_append (r : String) (l₁ l₂ : List StoredRecord) :
    countFor r (l₁ ++ l₂) = countFor r l₁ + countFor r l₂ := by
  simp [countFor, List.filter_append]

theorem countFor_single_ne (r : String) (rec : StoredRecord)
    (h : rec.requestId ≠ r) : countFor r [rec] = 0 := by
  simp [countFor, h]

theorem countFor_single_eq (r : String) (rec : StoredRecord)
    (h : rec.requestId = r) : countFor r [rec] = 1 := by
  simp [countFor, h]

theorem countFor_append_single_ne (r : String) (l : List StoredRecord)
    (rec : StoredRecord) (h : rec.requestId ≠ r) :
    countFor r (l ++ [rec]) = countFor r l := by
  rw [countFor_append, countFor_single_ne r rec h]
  exact Nat.add_zero _

theorem countFor_append_single_eq (r : String) (l : List StoredRecord)
    (rec : StoredRecord) (h : rec.requestId = r) :
    countFor r (l ++ [rec]) = countFor r l + 1 := by
  rw [countFor_append, countFor_single_eq r rec h]

theorem countFor_step_nonterminal (p : HostPrims) (s : RMState) (e : REvent)
    (r : String) (hterm : isTerminalFor r e = false) (hinv : mapKeyInv s) :
    countFor r (rmStep p s e).stored = countFor r s.stored := by
  cases e with
  | request req gid createdAt =>
    simp only [rmStep, RecordingManager.handleRequest]
    split <;> rfl
  | response rid resp =>
    simp only [rmStep, RecordingManager.handleResponse]
    split <;> rfl
  | complete rid bd =>
    simp only [isTerminalFor, decide_eq_false_iff_not] at hterm
    simp only [rmStep, RecordingManager.handleRequestComplete]
    split
    · rfl
    · next record hrec =>
      exact countFor_append_single_ne r s.stored _
        (ne_of_eq_of_ne ((requestId_complete_update p s.filters bd record).trans
          (hinv rid record hrec)) hterm)
  | failed rid err =>
    simp only [isTerminalFor, decide_eq_false_iff_not] at hterm
    simp only [rmStep, RecordingManager.handleRequestFailed]
    split
    · rfl
    · next record hrec =>
      exact countFor_append_single_ne r s.stored _
        (ne_of_eq_of_ne (hinv rid record hrec) hterm)

theorem countFor_step_terminal (p : HostPrims) (s : RMState) (e : REvent)
    (r : String) (hterm : isTerminalFor r e = true) (hinv : mapKeyInv s)
    (htracked : (List.lookup r s.requestMap).isSome = true) :
    countFor r (rmStep p s e).stored = countFor r s.stored + 1 := by
  cases e with
  | request req gid createdAt => simp [isTerminalFor] at hterm
  | response rid resp => simp [isTerminalFor] at hterm
  | complete rid bd =>
    simp only [isTerminalFor, decide_eq_true_eq] at hterm
    subst hterm
    obtain ⟨record, hrec⟩ := Option.isSome_iff_exists.mp htracked
    simp only [rmStep, RecordingManager.handleRequestComplete, hrec]
    exact countFor_append_single_eq rid s.stored _
      ((requestId_complete_update p s.filters bd record).trans
        (hinv rid record hrec))
  | failed rid err =>
    simp only [isTerminalFor, decide_eq_true_eq] at hterm
    subst hterm
    obtain ⟨record, hrec⟩ := Option.isSome_iff_exists.mp htracked
    simp only [rmStep, RecordingManager.handleRequestFailed, hrec]
    exact countFor_append_single_eq rid s.stored _ (hinv rid record hrec)

theorem countFor_run_nonterminal (p : HostPrims) (s : RMState)
    (es : List REvent) (r : String)
    (hall : ∀ e ∈ es, isTerminalFor r e = false) (hinv : mapKeyInv s) :
    countFor r (rmRun p s es).stored = countFor r s.stored := by
  induction es generalizing s with
  | nil => rfl
  | cons e es ih =>
    rw [rmRun_cons, ih _ (fun e' he' => hall e' (List.mem_cons_of_mem e he'))
        (mapKeyInv_step p s e hinv),
      countFor_step_nonterminal p s e r (hall e (List.mem_cons_self e es)) hinv]

/-- Counterexample to claim C1 as stated: a terminal transition does not
remove the record from `requestMap`, and `handleRequestComplete` guards only
on the entry's presence, so after `handleRequest`; `handleRequestFailed`;
`handleRequestComplete` for the same requestId the coordinator hands the
storage collaborator two records for that requestId — first the Failed one,
then a second, Completed one. -/
theorem C1_counterexample :
    (rmRun trivPrims
      { currentSessionId := some "S", requestMap := [],
        filters := defaultFilters, stored := [] }
      [ .request { requestId := "R1", url := "https://example.com/",
                   method := "GET", headers := some [], postData := none,
                   queryString := none, referrer := none, initiator := none,
                   resourceType := none, frameId := none, timestamp := 0,
                   redirectChain := [] } "g1" "c1",
        .failed "R1" { errorText := "net::ERR_FAILED", canceled := false,
                       blockedReason := none },
        .complete "R1" { body := none, base64Encoded := none,
                         bodySize := none } ]).stored.map
      (fun rec => (rec.requestId, rec.status))
    = [("R1", "failed"), ("R1", "completed")] :=
  rfl

/-- Claim C1, amended: the coordinator hands a requestId's record to storage
once per terminal handler invocation that finds the entry tracked; so the
at-most-once handoff holds exactly under the protocol-order assumption that
at most one terminal event (Completed or Failed) is delivered per requestId.
Formally: in any event run that starts from a fresh state with an active
session (a set, non-empty session id — the JS guard is a truthiness test)
and contains one `handleRequest` for requestId `r` and exactly one
terminal event for `r` (after the request, in any interleaving with events
for other requestIds), exactly one record for `r` is handed to storage. A
second terminal invocation for `r` would store a second record, because the
entry is retained in the request map after handoff. -/
theorem C1_amended_at_most_once (p : HostPrims) (f : Filters)
    (sid gid createdAt r : String) (req : RequestRecord) (t : REvent)
    (l₁ l₂ l₃ : List REvent)
    (hsid : sid ≠ "")
    (hreq : req.requestId = r)
    (hterm : isTerminalFor r t = true)
    (h₁ : ∀ e ∈ l₁, isTerminalFor r e = false)
    (h₂ : ∀ e ∈ l₂, isTerminalFor r e = false)
    (h₃ : ∀ e ∈ l₃, isTerminalFor r e = false) :
    countFor r (rmRun p
      { currentSessionId := some sid, requestMap := [],
        filters := f, stored := [] }
      (l₁ ++ REvent.request req gid createdAt :: (l₂ ++ t :: l₃))).stored = 1 := by
  set s₀ : RMState :=
    { currentSessionId := some sid, requestMap := [], filters := f, stored := [] }
    with hs₀
  have hinv₀ : mapKeyInv s₀ := by
    intro k rec h
    simp [hs₀, List.lookup] at h
  rw [rmRun_append, rmRun_cons]
  set s₁ := rmRun p s₀ l₁ with hs₁
  have hinv₁ : mapKeyInv s₁ := mapKeyInv_run p s₀ l₁ hinv₀
  have hsess₁ : s₁.currentSessionId = some sid := by
    rw [hs₁, rmRun_sessionId]
  have hcount₁ : countFor r s₁.stored = 0 :=
    (countFor_run_nonterminal p s₀ l₁ r h₁ hinv₀).trans rfl
  set s₂ := rmStep p s₁ (REvent.request req gid createdAt) with hs₂
  have hinv₂ : mapKeyInv s₂ := mapKeyInv_step p s₁ _ hinv₁
  have hcount₂ : countFor r s₂.stored = 0 := by
    rw [hs₂, countFor_step_nonterminal p s₁ (REvent.request req gid createdAt) r rfl hinv₁,
      hcount₁]
  have htrack₂ : (List.lookup r s₂.requestMap).isSome = true := by
    rw [hs₂]
    simp only [rmStep, RecordingManager.handleRequest, hsess₁, jsOrNullStr,
      if_neg hsid]
    rw [lookup_upsert]
    simp [hreq]
  rw [rmRun_append, rmRun_cons]
  set s₃ := rmRun p s₂ l₂ with hs₃
  have hinv₃ : mapKeyInv s₃ := mapKeyInv_run p s₂ l₂ hinv₂
  have hcount₃ : countFor r s₃.stored = 0 := by
    rw [hs₃, countFor_run_nonterminal p s₂ l₂ r h₂ hinv₂, hcount₂]
  have htrack₃ : (List.lookup r s₃.requestMap).isSome = true :=
    rmRun_tracked p s₂ l₂ r htrack₂
  set s₄ := rmStep p s₃ t with hs₄
  have hinv₄ : mapKeyInv s₄ := mapKeyInv_step p s₃ t hinv₃
  have hcount₄ : countFor r s₄.stored = 1 := by
    rw [hs₄, countFor_step_terminal p s₃ t r hterm hinv₃ htrack₃, hcount₃]
  rw [countFor_run_nonterminal p s₄ l₃ r h₃ hinv₄, hcount₄]

/-- Witness for the amended C1: a concrete run — request for `R1`, an
unrelated request, its response, the single failure event for `R1` — stores
exactly one record for `R1`. -/
theorem C1_amended_at_most_once_witness :
    countFor "R1" (rmRun trivPrims
      { currentSessionId := some "S", requestMap := [],
        filters := defaultFilters, stored := [] }
      ([] ++ REvent.request
          { requestId := "R1", url := "https://example.com/", method := "GET",
            headers := some [], postData := none, queryString := none,
            referrer := none, initiator := none, resourceType := none,
            frameId := none, timestamp := 0, redirectChain := [] } "g1" "c1"
        :: ([ .request
                { requestId := "R2", url := "https://example.com/b",
                  method := "GET", headers := some [], postData := none,
                  queryString := none, referrer := none, initiator := none,
                  resourceType := none, frameId := none, timestamp := 1,
                  redirectChain := [] } "g2" "c2" ]
            ++ REvent.failed "R1"
                { errorText := "net::ERR_FAILED", canceled := false,
                  blockedReason := none }
              :: []))).stored = 1 :=
  C1_amended_at_most_once trivPrims defaultFilters "S" "g1" "c1" "R1" _ _ _ _ _
    (by decide) rfl rfl (by intro e he; cases he)
    (by intro e he; simp at he; subst he; rfl)
    (by intro e he; cases he)

/-- Claim C3 concerns a code bug: `findOriginalRequest` looks for an entry
whose `redirectChain` already CONTAINS the incoming requestId, but chains
start empty and are only ever extended through this same lookup, so the chain
can never acquire a first element. Evaluating the code at the claim's own
scenario — initiation for id "1", then initiation for id "2" with
`redirectResponse` set — the lookup finds no original request and the record
for id "1" keeps an empty `redirectChain`, not one containing "2". -/
theorem C3_redirect_chain_never_linked :
    (List.lookup "1"
        (EventHandler.handleRequestWillBeSent "g2" "c2" 1
          { requestId := "2",
            request := { url := "https://example.com/next", method := "GET",
                         headers := some [], postData := none, referrer := none },
            redirectResponse := some (), type := none, frameId := none,
            initiator := none }
          (EventHandler.handleRequestWillBeSent "g1" "c1" 0
            { requestId := "1",
              request := { url := "https://example.com/start", method := "GET",
                           headers := some [], postData := none,
                           referrer := none },
              redirectResponse := none, type := none, frameId := none,
              initiator := none }
            { pendingRequests := [],
              rm := { currentSessionId := some "S", requestMap := [],
                      filters := defaultFilters,
                      stored := [] } })).pendingRequests).map
      (fun e => e.request.redirectChain)
    = some []
    ∧ EventHandler.findOriginalRequest "2"
        (EventHandler.handleRequestWillBeSent "g1" "c1" 0
          { requestId := "1",
            request := { url := "https://example.com/start", method := "GET",
                         headers := some [], postData := none,
                         referrer := none },
            redirectResponse := none, type := none, frameId := none,
            initiator := none }
          { pendingRequests := [],
            rm := { currentSessionId := some "S", requestMap := [],
                    filters := defaultFilters,
                    stored := [] } }).pendingRequests
      = none :=
  ⟨rfl, rfl⟩
